import Mathlib

/-!
Verification of the `integrators` crate: a shallow embedding of its
marshaling layer (`src/traits.rs`), its callback trampoline
(`src/ffi.rs`, `LandingPad`), its Cuba adapters (`src/cuba/*.rs`) and its
GSL adapters (`src/gsl/*.rs`), together with theorems settling the
specification claims about them.

Modelling conventions:
- `Real = f64` is modelled as `ℚ` (exact arithmetic); the marshaling layer
  only moves values around, so this is faithful for every structural claim.
- A Rust panic is modelled as an `Except.error` carrying a `PanicPayload`;
  distinct panic sites carry distinct payload constructors, and arbitrary
  user payloads (a `Box<dyn Any>` in Rust) are coded by `PanicPayload.user`.
- Flat `&[f64]` / `&mut [f64]` buffers are `List ℚ`; an in-place write is
  modelled by returning the new buffer contents, and an out-of-range
  index access is the `indexOutOfBounds` panic, as in Rust.
- The linked foreign routines (Cuba, GSL) are black boxes: each is a
  parameter producing a status code, output buffers and the state of the
  landing pad after the foreign-driven callbacks.
-/

/-- Payload of a Rust panic. `assertionFailed` is a plain `assert!` panic
(carrying no data), `vecLenMismatch expected got` is the panic raised by
`<Vec<Real> as IntegrandOutput>::into_args` (which formats both lengths),
`indexOutOfBounds` is a slice-indexing panic, `gslBadInput` is the panic in
`gsl_integrand_fn` for a >1-dimensional input type, `unreachableHit` is an
`unreachable!` panic, and `user n` codes an arbitrary integrand panic. -/
inductive PanicPayload where
  | assertionFailed : PanicPayload
  | indexOutOfBounds : PanicPayload
  | vecLenMismatch : ℕ → ℕ → PanicPayload
  | gslBadInput : PanicPayload
  | unreachableHit : PanicPayload
  | user : ℕ → PanicPayload
deriving DecidableEq

/-- Reading `l[i]`: Rust panics when the index is out of bounds. -/
def readIdx (l : List ℚ) (i : ℕ) : Except PanicPayload ℚ :=
  match l.get? i with
  | some x => Except.ok x
  | none => Except.error PanicPayload.indexOutOfBounds

/-- Writing `l[i] = x`: Rust panics when the index is out of bounds. -/
def writeIdx (l : List ℚ) (i : ℕ) (x : ℚ) : Except PanicPayload (List ℚ) :=
  if i < l.length then Except.ok (l.set i x) else Except.error PanicPayload.indexOutOfBounds

/-- A sequence of in-place writes `args[i] = v0; args[i+1] = v1; ...`, the
body of every `into_args` implementation. On a panic the buffer keeps the
writes made so far (Rust writes in place). -/
def writeSeq (args : List ℚ) (i : ℕ) : List ℚ → Except PanicPayload Unit × List ℚ
  | [] => (Except.ok (), args)
  | v :: vs =>
    match writeIdx args i v with
    | Except.error p => (Except.error p, args)
    | Except.ok args2 => writeSeq args2 (i + 1) vs

/- Sizes declared by `impl_integrand_traits!` in src/traits.rs. The macro is
instantiated with size N for the N-tuple for N = 1..7, but with size 7 for
the 8-tuple (src/traits.rs line 125). -/

def realInputSize : ℕ := 1
def real2InputSize : ℕ := 2
def real3InputSize : ℕ := 3
def real4InputSize : ℕ := 4
def real5InputSize : ℕ := 5
def real6InputSize : ℕ := 6
def real7InputSize : ℕ := 7
def real8InputSize : ℕ := 7

def realOutputSize : ℕ := 1
def real2OutputSize : ℕ := 2
def real3OutputSize : ℕ := 3
def real4OutputSize : ℕ := 4
def real5OutputSize : ℕ := 5
def real6OutputSize : ℕ := 6
def real7OutputSize : ℕ := 7
def real8OutputSize : ℕ := 7

/- `from_args` for each tuple arity: assert the buffer length equals the
declared input size, then read the components by index. -/

def realFromArgs (args : List ℚ) : Except PanicPayload ℚ :=
  if args.length = realInputSize then
    readIdx args 0
  else Except.error PanicPayload.assertionFailed

def real2FromArgs (args : List ℚ) : Except PanicPayload (ℚ × ℚ) :=
  if args.length = real2InputSize then do
    let a0 ← readIdx args 0
    let a1 ← readIdx args 1
    Except.ok (a0, a1)
  else Except.error PanicPayload.assertionFailed

def real3FromArgs (args : List ℚ) : Except PanicPayload (ℚ × ℚ × ℚ) :=
  if args.length = real3InputSize then do
    let a0 ← readIdx args 0
    let a1 ← readIdx args 1
    let a2 ← readIdx args 2
    Except.ok (a0, a1, a2)
  else Except.error PanicPayload.assertionFailed

def real4FromArgs (args : List ℚ) : Except PanicPayload (ℚ × ℚ × ℚ × ℚ) :=
  if args.length = real4InputSize then do
    let a0 ← readIdx args 0
    let a1 ← readIdx args 1
    let a2 ← readIdx args 2
    let a3 ← readIdx args 3
    Except.ok (a0, a1, a2, a3)
  else Except.error PanicPayload.assertionFailed

def real5FromArgs (args : List ℚ) : Except PanicPayload (ℚ × ℚ × ℚ × ℚ × ℚ) :=
  if args.length = real5InputSize then do
    let a0 ← readIdx args 0
    let a1 ← readIdx args 1
    let a2 ← readIdx args 2
    let a3 ← readIdx args 3
    let a4 ← readIdx args 4
    Except.ok (a0, a1, a2, a3, a4)
  else Except.error PanicPayload.assertionFailed

def real6FromArgs (args : List ℚ) : Except PanicPayload (ℚ × ℚ × ℚ × ℚ × ℚ × ℚ) :=
  if args.length = real6InputSize then do
    let a0 ← readIdx args 0
    let a1 ← readIdx args 1
    let a2 ← readIdx args 2
    let a3 ← readIdx args 3
    let a4 ← readIdx args 4
    let a5 ← readIdx args 5
    Except.ok (a0, a1, a2, a3, a4, a5)
  else Except.error PanicPayload.assertionFailed

def real7FromArgs (args : List ℚ) : Except PanicPayload (ℚ × ℚ × ℚ × ℚ × ℚ × ℚ × ℚ) :=
  if args.length = real7InputSize then do
    let a0 ← readIdx args 0
    let a1 ← readIdx args 1
    let a2 ← readIdx args 2
    let a3 ← readIdx args 3
    let a4 ← readIdx args 4
    let a5 ← readIdx args 5
    let a6 ← readIdx args 6
    Except.ok (a0, a1, a2, a3, a4, a5, a6)
  else Except.error PanicPayload.assertionFailed

/-- Model of `from_args` for the 8-tuple: the macro instantiation declares input size
7 (src/traits.rs line 125) but the conversion reads `args[7]`. -/
def real8FromArgs (args : List ℚ) : Except PanicPayload (ℚ × ℚ × ℚ × ℚ × ℚ × ℚ × ℚ × ℚ) :=
  if args.length = real8InputSize then do
    let a0 ← readIdx args 0
    let a1 ← readIdx args 1
    let a2 ← readIdx args 2
    let a3 ← readIdx args 3
    let a4 ← readIdx args 4
    let a5 ← readIdx args 5
    let a6 ← readIdx args 6
    let a7 ← readIdx args 7
    Except.ok (a0, a1, a2, a3, a4, a5, a6, a7)
  else Except.error PanicPayload.assertionFailed

/- The component lists written by each tuple's `into_args` body. -/

def realComponents (t : ℚ) : List ℚ := [t]
def real2Components (t : ℚ × ℚ) : List ℚ := [t.1, t.2]
def real3Components (t : ℚ × ℚ × ℚ) : List ℚ := [t.1, t.2.1, t.2.2]
def real4Components (t : ℚ × ℚ × ℚ × ℚ) : List ℚ := [t.1, t.2.1, t.2.2.1, t.2.2.2]
def real5Components (t : ℚ × ℚ × ℚ × ℚ × ℚ) : List ℚ :=
  [t.1, t.2.1, t.2.2.1, t.2.2.2.1, t.2.2.2.2]
def real6Components (t : ℚ × ℚ × ℚ × ℚ × ℚ × ℚ) : List ℚ :=
  [t.1, t.2.1, t.2.2.1, t.2.2.2.1, t.2.2.2.2.1, t.2.2.2.2.2]
def real7Components (t : ℚ × ℚ × ℚ × ℚ × ℚ × ℚ × ℚ) : List ℚ :=
  [t.1, t.2.1, t.2.2.1, t.2.2.2.1, t.2.2.2.2.1, t.2.2.2.2.2.1, t.2.2.2.2.2.2]
def real8Components (t : ℚ × ℚ × ℚ × ℚ × ℚ × ℚ × ℚ × ℚ) : List ℚ :=
  [t.1, t.2.1, t.2.2.1, t.2.2.2.1, t.2.2.2.2.1, t.2.2.2.2.2.1, t.2.2.2.2.2.2.1,
   t.2.2.2.2.2.2.2]

/- `into_args` for each tuple arity: assert the buffer length equals the
declared output size, then write the components at indices 0, 1, ... . -/

def realIntoArgs (t : ℚ) (args : List ℚ) : Except PanicPayload Unit × List ℚ :=
  if args.length = realOutputSize then writeSeq args 0 (realComponents t)
  else (Except.error PanicPayload.assertionFailed, args)

def real2IntoArgs (t : ℚ × ℚ) (args : List ℚ) : Except PanicPayload Unit × List ℚ :=
  if args.length = real2OutputSize then writeSeq args 0 (real2Components t)
  else (Except.error PanicPayload.assertionFailed, args)

def real3IntoArgs (t : ℚ × ℚ × ℚ) (args : List ℚ) : Except PanicPayload Unit × List ℚ :=
  if args.length = real3OutputSize then writeSeq args 0 (real3Components t)
  else (Except.error PanicPayload.assertionFailed, args)

def real4IntoArgs (t : ℚ × ℚ × ℚ × ℚ) (args : List ℚ) : Except PanicPayload Unit × List ℚ :=
  if args.length = real4OutputSize then writeSeq args 0 (real4Components t)
  else (Except.error PanicPayload.assertionFailed, args)

def real5IntoArgs (t : ℚ × ℚ × ℚ × ℚ × ℚ) (args : List ℚ) :
    Except PanicPayload Unit × List ℚ :=
  if args.length = real5OutputSize then writeSeq args 0 (real5Components t)
  else (Except.error PanicPayload.assertionFailed, args)

def real6IntoArgs (t : ℚ × ℚ × ℚ × ℚ × ℚ × ℚ) (args : List ℚ) :
    Except PanicPayload Unit × List ℚ :=
  if args.length = real6OutputSize then writeSeq args 0 (real6Components t)
  else (Except.error PanicPayload.assertionFailed, args)

def real7IntoArgs (t : ℚ × ℚ × ℚ × ℚ × ℚ × ℚ × ℚ) (args : List ℚ) :
    Except PanicPayload Unit × List ℚ :=
  if args.length = real7OutputSize then writeSeq args 0 (real7Components t)
  else (Except.error PanicPayload.assertionFailed, args)

/-- Model of `into_args` for the 8-tuple: the declared output size is 7
(src/traits.rs line 125) but the body writes `args[7]`. -/
def real8IntoArgs (t : ℚ × ℚ × ℚ × ℚ × ℚ × ℚ × ℚ × ℚ) (args : List ℚ) :
    Except PanicPayload Unit × List ℚ :=
  if args.length = real8OutputSize then writeSeq args 0 (real8Components t)
  else (Except.error PanicPayload.assertionFailed, args)

/-- Model of `<Vec<Real> as IntegrandOutput>::output_size` (src/traits.rs line 28). -/
def vecOutputSize (v : List ℚ) : ℕ := v.length

/-- Model of `<Vec<Real> as IntegrandOutput>::into_args` (src/traits.rs lines 32-40):
on a length mismatch it panics with a message formatting the expected
(buffer) length and the actual (vector) length, without writing; otherwise
it copies the vector into the buffer element by element. -/
def vecIntoArgs (v : List ℚ) (output : List ℚ) : Except PanicPayload Unit × List ℚ :=
  if v.length ≠ output.length then
    (Except.error (PanicPayload.vecLenMismatch output.length v.length), output)
  else writeSeq output 0 v

/-!
## Callback trampoline (src/ffi.rs)

`LandingPad<A, B, F>` owns the integrand `F: FnMut(A) -> B` and an
`err: Option<Box<dyn Any + Send>>`. The whole `catch_unwind` body of
`try_call` — `(lp.fun)(A::from_args(args)).into_args(output)` — is
abstracted as `step`, indexed by the invocation count (the closure is
`FnMut`, so each invocation may behave differently) and acting on the
argument and output buffers; it either completes the output buffer or
panics, leaving the buffer with the writes made so far. The `count` field
is verification instrumentation counting integrand invocations.
-/

structure LandingPadM where
  err : Option PanicPayload
  step : ℕ → List ℚ → List ℚ → Except (PanicPayload × List ℚ) (List ℚ)
  count : ℕ

/-- Model of `LandingPad::try_call` (src/ffi.rs lines 39-61): if a failure is
already stored, return it immediately, touching neither the integrand nor
the output buffer; otherwise run the integrand under `catch_unwind`,
storing the payload of any panic. -/
def tryCall (lp : LandingPadM) (args output : List ℚ) :
    Except PanicPayload Unit × LandingPadM × List ℚ :=
  match lp.err with
  | some e => (Except.error e, lp, output)
  | none =>
    match lp.step lp.count args output with
    | Except.ok res => (Except.ok (), { lp with count := lp.count + 1 }, res)
    | Except.error pe =>
      (Except.error pe.1, { lp with err := some pe.1, count := lp.count + 1 }, pe.2)

/-- A sequence of `try_call` invocations, each with its own argument and
output buffers, returning every call's result and final buffer plus the
final landing pad. -/
def runCalls (lp : LandingPadM) :
    List (List ℚ × List ℚ) → List (Except PanicPayload Unit × List ℚ) × LandingPadM
  | [] => ([], lp)
  | c :: cs =>
    match tryCall lp c.1 c.2 with
    | (r, lp2, out2) =>
      match runCalls lp2 cs with
      | (rs, lpf) => ((r, out2) :: rs, lpf)

/-- Model of `LandingPad::maybe_resume_unwind` (src/ffi.rs lines 67-71): re-raise
the stored panic payload if there is one, otherwise return normally. -/
def maybeResumeUnwind (lp : LandingPadM) : Except PanicPayload Unit :=
  match lp.err with
  | some e => Except.error e
  | none => Except.ok ()

/-- Model of `LandingPad::finish` (src/ffi.rs lines 73-75). -/
def landingPadFinish (lp : LandingPadM) : Option PanicPayload := lp.err

/-- Model of `cuba_integrand` (src/cuba/mod.rs lines 71-92): the `extern "C"` entry
point Cuba calls. It returns `0` when `try_call` succeeds and the special
abort code `-999` when it fails. -/
def cubaIntegrandFn (lp : LandingPadM) (args output : List ℚ) :
    Int × LandingPadM × List ℚ :=
  match tryCall lp args output with
  | (Except.ok _, lp2, out2) => (0, lp2, out2)
  | (Except.error _, lp2, out2) => (-999, lp2, out2)

/-- Model of `gsl_integrand_fn` (src/gsl/mod.rs lines 67-85): the `extern "C"` entry
point GSL calls. Its ABI returns the integrand's value (a `Real`), not a
status code. It panics (outside the landing pad) if the input type is not
1-dimensional; on `try_call` success it returns `output[0]`, and on a
captured failure it returns the plain value `0.0`. -/
def gslIntegrandFn (inputSize : ℕ) (lp : LandingPadM) (x : ℚ) :
    Except PanicPayload ℚ × LandingPadM :=
  if inputSize ≠ 1 then (Except.error PanicPayload.gslBadInput, lp)
  else
    match tryCall lp [x] [0] with
    | (Except.ok _, lp2, out2) => (Except.ok (out2.getD 0 0), lp2)
    | (Except.error _, lp2, _) => (Except.ok 0, lp2)

/-!
## Typed integrand and adapter pipelines

For the adapters' `integrate` methods the integrand is viewed through its
marshaling types: `inputSize` is `A::input_size()`, and `call n args` is
the n-th invocation of the closure on the decoded arguments, returning the
output components of the produced `B` value (so `output_size` of the result
is the length) or a panic payload. The foreign routines themselves are
parameters: given the number of integrand invocations already made, a
foreign simulation yields the status code, the per-index contents it wrote
into the output buffers, the landing pad's captured failure after all its
callback invocations, and the total invocation count afterwards.
-/

structure IntegrandM where
  inputSize : ℕ
  call : ℕ → List ℚ → Except PanicPayload (List ℚ)

/-- Model of `GSLIntegrationError` (src/gsl/mod.rs lines 201-206). GSL status codes
are carried as raw integers here; the claims under study never inspect the
`GSLErrorCode` sub-variants. -/
inductive GSLIntegrationError where
  | invalidInputDim : ℕ → GSLIntegrationError
  | invalidOutputDim : ℕ → GSLIntegrationError
  | gslError : Int → GSLIntegrationError
deriving DecidableEq

/-- Result of `make_gsl_function`, with the integrand invocation count it
leaves behind (`panicked` is a panic propagating out of `raw_call`). -/
inductive MkGslResult where
  | ok : ℕ → MkGslResult
  | err : GSLIntegrationError → ℕ → MkGslResult
  | panicked : PanicPayload → ℕ → MkGslResult
deriving DecidableEq

/-- Model of `make_gsl_function` (src/gsl/mod.rs lines 93-119): reject a non-1-
dimensional input type without touching the integrand; otherwise probe the
integrand at the range midpoint through `raw_call` (no interception — a
panic propagates); if the probed output size is not 1, call `raw_call` a
second time to fetch the size for the `InvalidOutputDim` error. -/
def makeGslFunction (g : IntegrandM) (cnt : ℕ) (lo hi : ℚ) : MkGslResult :=
  if g.inputSize ≠ 1 then
    MkGslResult.err (GSLIntegrationError.invalidInputDim g.inputSize) cnt
  else
    match g.call cnt [(lo + hi) / 2] with
    | Except.error p => MkGslResult.panicked p (cnt + 1)
    | Except.ok out =>
      if out.length ≠ 1 then
        match g.call (cnt + 1) [(lo + hi) / 2] with
        | Except.error p => MkGslResult.panicked p (cnt + 2)
        | Except.ok out2 =>
          MkGslResult.err (GSLIntegrationError.invalidOutputDim out2.length) (cnt + 2)
      else MkGslResult.ok (cnt + 1)

/-- Black-box behaviour of one `gsl_integration_*` routine invocation:
status code, the value and error estimate it wrote, the landing pad's
captured failure after its callbacks, and the integrand invocation count
afterwards. -/
structure GslForeignOut where
  retcode : Int
  value : ℚ
  errEst : ℚ
  padErr : Option PanicPayload
  newCount : ℕ

structure IntegrationResultQ where
  value : ℚ
  error : ℚ
deriving DecidableEq

/-- Outcome of an `integrate` call: normal result, typed error, or a panic
propagating to the caller. -/
inductive Outcome (ε α : Type) where
  | ok : α → Outcome ε α
  | err : ε → Outcome ε α
  | panicked : PanicPayload → Outcome ε α
deriving DecidableEq

/-- Model of `QNG::integrate` (src/gsl/qng.rs lines 36-63), representative of every
GSL adapter: build the GSL function (propagating its error via `?` before
any foreign call), invoke the foreign routine, then `maybe_resume_unwind`,
then map the status code. The returned triple is (outcome, final integrand
invocation count, whether the foreign routine was invoked). -/
def qngIntegrate (g : IntegrandM) (lo hi : ℚ) (fr : ℕ → GslForeignOut) :
    Outcome GSLIntegrationError IntegrationResultQ × ℕ × Bool :=
  match makeGslFunction g 0 lo hi with
  | MkGslResult.err e cnt => (Outcome.err e, cnt, false)
  | MkGslResult.panicked p cnt => (Outcome.panicked p, cnt, false)
  | MkGslResult.ok cnt =>
    match (fr cnt).padErr with
    | some p => (Outcome.panicked p, (fr cnt).newCount, true)
    | none =>
      if (fr cnt).retcode ≠ 0 then
        (Outcome.err (GSLIntegrationError.gslError (fr cnt).retcode), (fr cnt).newCount, true)
      else
        (Outcome.ok { value := (fr cnt).value, error := (fr cnt).errEst },
         (fr cnt).newCount, true)

/-!
## Cuba adapters (src/cuba/cuhre.rs, vegas.rs, suave.rs)

Every Cuba `integrate` first disables Cuba's fork-based parallelism, then
probes the integrand once directly (`fun(A::from_args(&vec![0.5; inputs]))`)
to learn the output arity, allocates zeroed value/error/prob buffers of
that length, calls the foreign routine, resumes any captured panic, and
maps the `fail` status code. The foreign routine writes the buffers in
place; it is abstracted as a function from the integrand invocation count
at entry to the written per-index contents, the status code, `nregions`,
`neval`, the landing pad's captured failure, and the invocation count at
exit. (`Suave::integrate` never constructs a `LandingPad` — it passes the
bare closure as user data — and has no `maybe_resume_unwind` step, so its
model ignores `padErr`.)
-/

structure CubaForeignOut where
  fail : Int
  value : ℕ → ℚ
  errEst : ℕ → ℚ
  prob : ℕ → ℚ
  nregions : Int
  neval : Int
  padErr : Option PanicPayload
  newCount : ℕ

structure CubaIntegrationResultQ where
  value : ℚ
  error : ℚ
  prob : ℚ
deriving DecidableEq

structure CubaIntegrationResultsQ where
  nregions : Option Int
  neval : Int
  results : List CubaIntegrationResultQ
deriving DecidableEq

/-- Model of `CubaError` (src/cuba/mod.rs lines 158-172). -/
inductive CubaError where
  | badDim : String → ℕ → CubaError
  | badComp : String → ℕ → CubaError
  | didNotConverge : CubaIntegrationResultsQ → CubaError
deriving DecidableEq

/-- The zip of the value/error/prob buffers of length `ncomp` into one
`CubaIntegrationResult` per output dimension. -/
def cubaResults (ncomp : ℕ) (o : CubaForeignOut) : List CubaIntegrationResultQ :=
  (List.range ncomp).map (fun i => { value := o.value i, error := o.errEst i, prob := o.prob i })

/-- Model of `Cuhre::integrate` (src/cuba/cuhre.rs lines 51-133). -/
def cuhreIntegrate (g : IntegrandM) (fr : ℕ → CubaForeignOut) :
    Outcome CubaError CubaIntegrationResultsQ × ℕ × Bool :=
  match g.call 0 (List.replicate g.inputSize ((1 : ℚ) / 2)) with
  | Except.error p => (Outcome.panicked p, 1, false)
  | Except.ok out0 =>
    match (fr 1).padErr with
    | some p => (Outcome.panicked p, (fr 1).newCount, true)
    | none =>
      if (fr 1).fail = 0 then
        (Outcome.ok { nregions := some (fr 1).nregions, neval := (fr 1).neval,
                      results := cubaResults out0.length (fr 1) },
         (fr 1).newCount, true)
      else if (fr 1).fail = -1 then
        (Outcome.err (CubaError.badDim "cuhre" g.inputSize), (fr 1).newCount, true)
      else if (fr 1).fail = -2 then
        (Outcome.err (CubaError.badComp "cuhre" out0.length), (fr 1).newCount, true)
      else if (fr 1).fail = 1 then
        (Outcome.err (CubaError.didNotConverge
            { nregions := some (fr 1).nregions, neval := (fr 1).neval,
              results := cubaResults out0.length (fr 1) }),
         (fr 1).newCount, true)
      else (Outcome.panicked PanicPayload.unreachableHit, (fr 1).newCount, true)

/-- Model of `Vegas::integrate` (src/cuba/vegas.rs lines 82-157): identical shape,
but Vegas reports no region count (`nregions := none` everywhere). -/
def vegasIntegrate (g : IntegrandM) (fr : ℕ → CubaForeignOut) :
    Outcome CubaError CubaIntegrationResultsQ × ℕ × Bool :=
  match g.call 0 (List.replicate g.inputSize ((1 : ℚ) / 2)) with
  | Except.error p => (Outcome.panicked p, 1, false)
  | Except.ok out0 =>
    match (fr 1).padErr with
    | some p => (Outcome.panicked p, (fr 1).newCount, true)
    | none =>
      if (fr 1).fail = 0 then
        (Outcome.ok { nregions := none, neval := (fr 1).neval,
                      results := cubaResults out0.length (fr 1) },
         (fr 1).newCount, true)
      else if (fr 1).fail = -1 then
        (Outcome.err (CubaError.badDim "vegas" g.inputSize), (fr 1).newCount, true)
      else if (fr 1).fail = -2 then
        (Outcome.err (CubaError.badComp "vegas" out0.length), (fr 1).newCount, true)
      else if (fr 1).fail = 1 then
        (Outcome.err (CubaError.didNotConverge
            { nregions := none, neval := (fr 1).neval,
              results := cubaResults out0.length (fr 1) }),
         (fr 1).newCount, true)
      else (Outcome.panicked PanicPayload.unreachableHit, (fr 1).newCount, true)

/-- Model of `Suave::integrate` (src/cuba/suave.rs lines 79-153): no landing pad and
no resume step; success carries `Some(nregions)` but non-convergence
carries `None` (src/cuba/suave.rs line 141). -/
def suaveIntegrate (g : IntegrandM) (fr : ℕ → CubaForeignOut) :
    Outcome CubaError CubaIntegrationResultsQ × ℕ × Bool :=
  match g.call 0 (List.replicate g.inputSize ((1 : ℚ) / 2)) with
  | Except.error p => (Outcome.panicked p, 1, false)
  | Except.ok out0 =>
    if (fr 1).fail = 0 then
      (Outcome.ok { nregions := some (fr 1).nregions, neval := (fr 1).neval,
                    results := cubaResults out0.length (fr 1) },
       (fr 1).newCount, true)
    else if (fr 1).fail = -1 then
      (Outcome.err (CubaError.badDim "suave" g.inputSize), (fr 1).newCount, true)
    else if (fr 1).fail = -2 then
      (Outcome.err (CubaError.badComp "suave" out0.length), (fr 1).newCount, true)
    else if (fr 1).fail = 1 then
      (Outcome.err (CubaError.didNotConverge
          { nregions := none, neval := (fr 1).neval,
            results := cubaResults out0.length (fr 1) }),
       (fr 1).newCount, true)
    else (Outcome.panicked PanicPayload.unreachableHit, (fr 1).newCount, true)

/-!
## QAGP singular-point validation (src/gsl/qagp.rs)
-/

structure QAGPModel where
  singularities : List ℚ
  nintervals : ℕ
deriving DecidableEq

/-- Model of `verify_singular_points` (src/gsl/qagp.rs lines 21-35): `None` when the
list has fewer than two points or some adjacent pair satisfies `a >= b`;
otherwise the collected list itself. -/
def verifySingularPoints (l : List ℚ) : Option (List ℚ) :=
  if l.length < 2 then none
  else if (l.zip l.tail).any (fun ab => decide (ab.2 ≤ ab.1)) then none
  else some l

/-- Model of `QAGP::new` (src/gsl/qagp.rs lines 46-52): field initializers run in
order, so the `?` on `verify_singular_points` returns `None` before the
workspace is allocated. The boolean records whether
`gsl_integration_workspace_alloc` (a foreign call) ran. -/
def qagpNew (nintervals : ℕ) (l : List ℚ) : Option QAGPModel × Bool :=
  match verifySingularPoints l with
  | none => (none, false)
  | some v => (some { singularities := v, nintervals := nintervals }, true)

/-- Model of `QAGP::with_points` (src/gsl/qagp.rs lines 66-72): revalidates through
`verify_singular_points`; no workspace allocation at all. -/
def qagpWithPoints (q : QAGPModel) (l : List ℚ) : Option QAGPModel :=
  match verifySingularPoints l with
  | none => none
  | some v => some { q with singularities := v }

/-!
## IntegrationRange (src/cuba/mod.rs lines 96-125)
-/

structure IntegrationRangeQ where
  start : ℚ
  length : ℚ
deriving DecidableEq

/-- Model of `IntegrationRange::new(start, end)` (the second field stores
`end - start`; `end` is a Lean keyword, hence `stop`). -/
def integrationRangeNew (start stop : ℚ) : IntegrationRangeQ :=
  { start := start, length := stop - start }

/-- Model of `IntegrationRange::transform` (src/cuba/mod.rs lines 116-119): assert
`0 <= x <= 1`, then map to `start + x * length`. -/
def rangeTransform (r : IntegrationRangeQ) (x : ℚ) : Except PanicPayload ℚ :=
  if 0 ≤ x ∧ x ≤ 1 then Except.ok (r.start + x * r.length)
  else Except.error PanicPayload.assertionFailed

/-- Model of `IntegrationRange::jacobian` (src/cuba/mod.rs lines 122-124). -/
def rangeJacobian (r : IntegrationRangeQ) : ℚ := r.length

/-!
## Helper lemmas and concrete landing pads
-/

/-- A landing pad with a stored failure short-circuits every later call:
each call returns the stored payload, leaves its output buffer untouched,
and the pad (including the invocation counter) never changes. -/
theorem runCalls_captured (lp : LandingPadM) (e : PanicPayload) (h : lp.err = some e) :
    ∀ calls : List (List ℚ × List ℚ),
      runCalls lp calls = (calls.map fun c => (Except.error e, c.2), lp) := by
  intro calls
  induction calls with
  | nil => simp [runCalls]
  | cons c cs ih => simp [runCalls, tryCall, h, ih]

/-- A pad whose integrand always panics with payload `user 7`. -/
def lpAlwaysFails : LandingPadM :=
  { err := none, step := fun _ _ _ => Except.error (PanicPayload.user 7, []), count := 0 }

/-- A pad that has already captured the failure payload `user 3`. -/
def lpFailedPad : LandingPadM :=
  { err := some (PanicPayload.user 3), step := fun _ _ output => Except.ok output, count := 5 }

/-- C1: fail-once policy of the callback trampoline. If a `try_call` on a
previously failure-free `LandingPad` captures a failure `e`, then the pad
stores `e`, the integrand was invoked for this capture (counter bumped to
`count + 1`), and every sequence of subsequent `try_call` invocations
returns the same stored payload `e`, leaves each output buffer exactly as
supplied, and never changes the pad again — in particular the invocation
counter stays frozen, so the integrand is never invoked again. -/
theorem c1_fail_once_policy (lp : LandingPadM) (args output : List ℚ) (e : PanicPayload)
    (hfresh : lp.err = none)
    (hcap : (tryCall lp args output).1 = Except.error e) :
    (tryCall lp args output).2.1.err = some e ∧
    (tryCall lp args output).2.1.count = lp.count + 1 ∧
    ∀ calls : List (List ℚ × List ℚ),
      runCalls (tryCall lp args output).2.1 calls =
        (calls.map fun c => (Except.error e, c.2), (tryCall lp args output).2.1) := by
  rcases hstep : lp.step lp.count args output with pe | res
  · have htc : tryCall lp args output =
        (Except.error pe.1, { lp with err := some pe.1, count := lp.count + 1 }, pe.2) := by
      simp [tryCall, hfresh, hstep]
    rw [htc] at hcap
    simp only [Except.error.injEq] at hcap
    subst hcap
    rw [htc]
    exact ⟨rfl, rfl, runCalls_captured _ _ rfl⟩
  · exfalso
    have htc : (tryCall lp args output).1 = Except.ok () := by
      simp [tryCall, hfresh, hstep]
    rw [htc] at hcap
    exact Except.noConfusion hcap

theorem c1_fail_once_policy_witness :
    (tryCall lpAlwaysFails [] []).2.1.err = some (PanicPayload.user 7) ∧
    (tryCall lpAlwaysFails [] []).2.1.count = 1 ∧
    runCalls (tryCall lpAlwaysFails [] []).2.1 [([1], [2])] =
      ([(Except.error (PanicPayload.user 7), [2])], (tryCall lpAlwaysFails [] []).2.1) := by
  have h := c1_fail_once_policy lpAlwaysFails [] [] (PanicPayload.user 7) rfl rfl
  exact ⟨h.1, h.2.1.trans rfl, (h.2.2 [([1], [2])]).trans rfl⟩

/-- C8: resume fidelity. When a fresh pad's wrapped call panics with
payload `p`, `maybe_resume_unwind` on the pad that captured it re-raises
exactly `p` — the very payload the integrand raised, i.e. what a direct
non-trampolined call at the same invocation would have raised — and on a
pad with no captured failure `maybe_resume_unwind` returns normally. -/
theorem c8_resume_fidelity (lp : LandingPadM) (args output buf : List ℚ) (p : PanicPayload)
    (hfresh : lp.err = none)
    (hstep : lp.step lp.count args output = Except.error (p, buf)) :
    maybeResumeUnwind (tryCall lp args output).2.1 = Except.error p ∧
    ∀ lp2 : LandingPadM, lp2.err = none → maybeResumeUnwind lp2 = Except.ok () := by
  constructor
  · simp [tryCall, hfresh, hstep, maybeResumeUnwind]
  · intro lp2 h2
    simp [maybeResumeUnwind, h2]

theorem c8_resume_fidelity_witness :
    maybeResumeUnwind (tryCall lpAlwaysFails [] []).2.1 =
      Except.error (PanicPayload.user 7) :=
  (c8_resume_fidelity lpAlwaysFails [] [] [] (PanicPayload.user 7) rfl rfl).1

/-- C2 counterexample: the GSL entry point does not return a negative abort
sentinel on a captured failure. On the concrete pad `lpFailedPad` (which
holds a captured failure, so `try_call` returns `Err`), `gsl_integrand_fn`
returns the ordinary numeric value `0.0` — its C ABI returns the integrand
value, with no status-code channel at all — refuting the claim that every
backend's entry point returns a designated negative abort status instead
of a numeric result. -/
theorem c2_counterexample :
    (tryCall lpFailedPad [(1 : ℚ) / 2] [0]).1 = Except.error (PanicPayload.user 3) ∧
    gslIntegrandFn 1 lpFailedPad ((1 : ℚ) / 2) = (Except.ok 0, lpFailedPad) :=
  ⟨rfl, rfl⟩

/-- C2 amended: whenever `try_call` fails, the Cuba entry point returns the
designated abort code `-999` (a negative sentinel) and never an ordinary
result; the GSL entry point, whose ABI has no status channel, returns the
plain numeric value `0.0` on a captured failure (the failure is surfaced
later by `maybe_resume_unwind`, not by the return value). -/
theorem c2_abort_codes (lp lp2 : LandingPadM) (args output : List ℚ) (x : ℚ)
    (e e2 : PanicPayload)
    (h : lp.err = some e)
    (h2 : (tryCall lp2 args output).1 = Except.error e2) :
    (cubaIntegrandFn lp2 args output).1 = -999 ∧
    ((-999 : Int) < 0) ∧
    gslIntegrandFn 1 lp x = (Except.ok 0, lp) := by
  refine ⟨?_, by norm_num, ?_⟩
  · rcases htc : tryCall lp2 args output with ⟨r, lp3, out3⟩
    rw [htc] at h2
    rcases r with e3 | u
    · simp [cubaIntegrandFn, htc]
    · exact absurd h2 (by simp)
  · simp [gslIntegrandFn, tryCall, h]

theorem c2_abort_codes_witness :
    (cubaIntegrandFn lpFailedPad [] []).1 = -999 :=
  (c2_abort_codes lpFailedPad lpFailedPad [] [] 0 (PanicPayload.user 3)
    (PanicPayload.user 3) rfl rfl).1

/-- C4: evaluation of the 8-tuple marshaling code at the failing inputs.
`impl_integrand_traits!` is instantiated for the 8-tuple with size 7
(src/traits.rs line 125), so the declared input and output arity of the
8-tuple is 7, not 8; `from_args` on an 8-element buffer panics on the
length assertion, `from_args` on a 7-element buffer (the declared arity)
panics reading `args[7]`, and `into_args` of any 8-tuple panics either on
the assertion (8-element buffer) or writing `args[7]` (7-element buffer):
the claimed arity-8 round-trip is impossible. -/
theorem c4_real8_arity_bug :
    real8InputSize = 7 ∧ real8OutputSize = 7 ∧
    real8FromArgs [1, 2, 3, 4, 5, 6, 7, 8] = Except.error PanicPayload.assertionFailed ∧
    real8FromArgs [1, 2, 3, 4, 5, 6, 7] = Except.error PanicPayload.indexOutOfBounds ∧
    (real8IntoArgs (1, 2, 3, 4, 5, 6, 7, 8) [0, 0, 0, 0, 0, 0, 0, 0]).1 =
      Except.error PanicPayload.assertionFailed ∧
    (real8IntoArgs (1, 2, 3, 4, 5, 6, 7, 8) [0, 0, 0, 0, 0, 0, 0]).1 =
      Except.error PanicPayload.indexOutOfBounds ∧
    (∀ x2 : ℚ × ℚ,
      real2IntoArgs x2 [0, 0] = (Except.ok (), real2Components x2) ∧
      real2FromArgs (real2Components x2) = Except.ok x2) ∧
    (∀ x7 : ℚ × ℚ × ℚ × ℚ × ℚ × ℚ × ℚ,
      real7IntoArgs x7 [0, 0, 0, 0, 0, 0, 0] = (Except.ok (), real7Components x7) ∧
      real7FromArgs (real7Components x7) = Except.ok x7) := by
  refine ⟨rfl, rfl, rfl, rfl, rfl, rfl, ?_, ?_⟩
  · intro x2
    exact ⟨by simp [real2IntoArgs, real2Components, writeSeq, writeIdx, real2OutputSize],
           by simp [real2FromArgs, real2Components, readIdx, real2InputSize, Bind.bind, Except.bind]⟩
  · intro x7
    exact ⟨by simp [real7IntoArgs, real7Components, writeSeq, writeIdx, real7OutputSize],
           by simp [real7FromArgs, real7Components, readIdx, real7InputSize, Bind.bind, Except.bind]⟩

/-- C7 amended: arity checks run on every conversion. For every input type,
`from_args` on a buffer whose length differs from the declared input arity
fails with the arity assertion before reading the buffer (the result is a
constant, independent of the buffer's contents); for every fixed-tuple
output type, `into_args` on a wrong-length buffer fails with a plain
assertion — carrying no length values — without writing the buffer; for the
dynamic vector output, `into_args` on a wrong-length buffer fails with a
payload carrying the expected (buffer) and actual (vector) lengths, without
writing the buffer. -/
theorem c7_arity_checks (args v : List ℚ)
    (t1 : ℚ) (t2 : ℚ × ℚ) (t3 : ℚ × ℚ × ℚ) (t4 : ℚ × ℚ × ℚ × ℚ)
    (t5 : ℚ × ℚ × ℚ × ℚ × ℚ) (t6 : ℚ × ℚ × ℚ × ℚ × ℚ × ℚ)
    (t7 : ℚ × ℚ × ℚ × ℚ × ℚ × ℚ × ℚ) (t8 : ℚ × ℚ × ℚ × ℚ × ℚ × ℚ × ℚ × ℚ) :
    (args.length ≠ realInputSize →
      realFromArgs args = Except.error PanicPayload.assertionFailed) ∧
    (args.length ≠ real2InputSize →
      real2FromArgs args = Except.error PanicPayload.assertionFailed) ∧
    (args.length ≠ real3InputSize →
      real3FromArgs args = Except.error PanicPayload.assertionFailed) ∧
    (args.length ≠ real4InputSize →
      real4FromArgs args = Except.error PanicPayload.assertionFailed) ∧
    (args.length ≠ real5InputSize →
      real5FromArgs args = Except.error PanicPayload.assertionFailed) ∧
    (args.length ≠ real6InputSize →
      real6FromArgs args = Except.error PanicPayload.assertionFailed) ∧
    (args.length ≠ real7InputSize →
      real7FromArgs args = Except.error PanicPayload.assertionFailed) ∧
    (args.length ≠ real8InputSize →
      real8FromArgs args = Except.error PanicPayload.assertionFailed) ∧
    (args.length ≠ realOutputSize →
      realIntoArgs t1 args = (Except.error PanicPayload.assertionFailed, args)) ∧
    (args.length ≠ real2OutputSize →
      real2IntoArgs t2 args = (Except.error PanicPayload.assertionFailed, args)) ∧
    (args.length ≠ real3OutputSize →
      real3IntoArgs t3 args = (Except.error PanicPayload.assertionFailed, args)) ∧
    (args.length ≠ real4OutputSize →
      real4IntoArgs t4 args = (Except.error PanicPayload.assertionFailed, args)) ∧
    (args.length ≠ real5OutputSize →
      real5IntoArgs t5 args = (Except.error PanicPayload.assertionFailed, args)) ∧
    (args.length ≠ real6OutputSize →
      real6IntoArgs t6 args = (Except.error PanicPayload.assertionFailed, args)) ∧
    (args.length ≠ real7OutputSize →
      real7IntoArgs t7 args = (Except.error PanicPayload.assertionFailed, args)) ∧
    (args.length ≠ real8OutputSize →
      real8IntoArgs t8 args = (Except.error PanicPayload.assertionFailed, args)) ∧
    (v.length ≠ args.length →
      vecIntoArgs v args = (Except.error (PanicPayload.vecLenMismatch args.length v.length), args)) := by
  refine ⟨?_, ?_, ?_, ?_, ?_, ?_, ?_, ?_, ?_, ?_, ?_, ?_, ?_, ?_, ?_, ?_, ?_⟩ <;>
    intro h <;>
    simp [realFromArgs, real2FromArgs, real3FromArgs, real4FromArgs, real5FromArgs,
          real6FromArgs, real7FromArgs, real8FromArgs, realIntoArgs, real2IntoArgs,
          real3IntoArgs, real4IntoArgs, real5IntoArgs, real6IntoArgs, real7IntoArgs,
          real8IntoArgs, vecIntoArgs, h]

theorem c7_arity_checks_witness :
    real2FromArgs [0, 0, 0] = Except.error PanicPayload.assertionFailed ∧
    real2IntoArgs (1, 2) [0, 0, 0] = (Except.error PanicPayload.assertionFailed, [0, 0, 0]) ∧
    vecIntoArgs [1, 2] [0, 0, 0] =
      (Except.error (PanicPayload.vecLenMismatch 3 2), [0, 0, 0]) := by
  obtain ⟨g1, g2, g3, g4, g5, g6, g7, g8, i1, i2, i3, i4, i5, i6, i7, i8, hv⟩ :=
    c7_arity_checks [0, 0, 0] [1, 2] 0 (1, 2) (0, 0, 0) (0, 0, 0, 0) (0, 0, 0, 0, 0)
      (0, 0, 0, 0, 0, 0) (0, 0, 0, 0, 0, 0, 0) (0, 0, 0, 0, 0, 0, 0, 0)
  exact ⟨g2 (by decide), i2 (by decide), hv (by decide)⟩

/-- C7 counterexample: a fixed-tuple `into_args` arity failure carries no
length information. Writing the pair `(1, 2)` into a 3-element buffer fails
with the plain assertion payload — which is not the lengths-carrying
payload the vector case produces — refuting the claim that every output
type's arity failure carries the expected and actual lengths. -/
theorem c7_counterexample :
    real2IntoArgs (1, 2) [0, 0, 0] = (Except.error PanicPayload.assertionFailed, [0, 0, 0]) ∧
    PanicPayload.assertionFailed ≠ PanicPayload.vecLenMismatch 3 2 ∧
    vecIntoArgs [1, 2] [0, 0, 0] =
      (Except.error (PanicPayload.vecLenMismatch 3 2), [0, 0, 0]) :=
  ⟨rfl, by decide, rfl⟩

/-- A 2-input integrand (used to witness the dimension-mismatch path). -/
def gTwoInput : IntegrandM := { inputSize := 2, call := fun _ _ => Except.ok [0] }

/-- A well-formed 1-input, 1-output integrand. -/
def gOneDim : IntegrandM := { inputSize := 1, call := fun _ _ => Except.ok [0] }

/-- A 1-input integrand whose probe reports 2 output components. -/
def gProbeTwice : IntegrandM := { inputSize := 1, call := fun _ _ => Except.ok [0, 0] }

/-- A trivial GSL foreign simulation: success, zero results, no callback
failure, integrand count unchanged. -/
def frTrivial : ℕ → GslForeignOut :=
  fun n => { retcode := 0, value := 0, errEst := 0, padErr := none, newCount := n }

/-- A trivial Cuba foreign simulation: success status, zero buffers. -/
def cfOk : ℕ → CubaForeignOut :=
  fun n => { fail := 0, value := fun _ => 0, errEst := fun _ => 0, prob := fun _ => 0,
             nregions := 4, neval := 9, padErr := none, newCount := n }

/-- C5: dimension mismatch is detected before any foreign call. For every
integrand whose input type has static arity different from 1, a GSL
adapter's `integrate` returns `InvalidInputDim` carrying that arity, the
foreign routine is never invoked (flag `false`), and the integrand itself
is never invoked either (final invocation count 0). -/
theorem c5_dimension_mismatch (g : IntegrandM) (lo hi : ℚ) (fr : ℕ → GslForeignOut)
    (h : g.inputSize ≠ 1) :
    qngIntegrate g lo hi fr =
      (Outcome.err (GSLIntegrationError.invalidInputDim g.inputSize), 0, false) := by
  simp [qngIntegrate, makeGslFunction, h]

theorem c5_dimension_mismatch_witness :
    qngIntegrate gTwoInput 0 1 frTrivial =
      (Outcome.err (GSLIntegrationError.invalidInputDim 2), 0, false) :=
  c5_dimension_mismatch gTwoInput 0 1 frTrivial (by decide)

/-- C9 counterexample: the probe is not always exactly one call. For the
concrete integrand `gProbeTwice` (1 input, probed output arity 2),
`make_gsl_function` leaves the invocation counter at 2 starting from 0: it
calls `raw_call` a second time to fetch the output size for the
`InvalidOutputDim` error (src/gsl/mod.rs lines 105-108), refuting the
claim that the output arity is determined by exactly one probe call. -/
theorem c9_counterexample :
    makeGslFunction gProbeTwice 0 0 1 =
      MkGslResult.err (GSLIntegrationError.invalidOutputDim 2) 2 := rfl

/-- C9 amended: in every adapter the output arity is determined by direct,
uninterception probe calls of the integrand at the representative input
(the interval midpoint for GSL, the unit-hypercube midpoint 0.5 for Cuba),
made before the foreign routine is invoked, and a probe failure propagates
immediately with no foreign call. On the success path exactly one probe
call is made (the counter is 1 when the foreign routine starts); the GSL
adapters make a second probe call when the probed output arity is not 1,
before returning the output-arity error; the Cuba adapters call the
closure directly (not through `raw_call`) and consult only its first
invocation. -/
theorem c9_probe_calls (g : IntegrandM) (lo hi : ℚ) (fr : ℕ → GslForeignOut)
    (cf : ℕ → CubaForeignOut) (p : PanicPayload) (out out2 : List ℚ) :
    (g.inputSize = 1 → g.call 0 [(lo + hi) / 2] = Except.ok out → out.length = 1 →
      makeGslFunction g 0 lo hi = MkGslResult.ok 1) ∧
    (g.inputSize = 1 → g.call 0 [(lo + hi) / 2] = Except.error p →
      qngIntegrate g lo hi fr = (Outcome.panicked p, 1, false)) ∧
    (g.inputSize = 1 → g.call 0 [(lo + hi) / 2] = Except.ok out → out.length ≠ 1 →
      g.call 1 [(lo + hi) / 2] = Except.ok out2 →
      makeGslFunction g 0 lo hi =
        MkGslResult.err (GSLIntegrationError.invalidOutputDim out2.length) 2) ∧
    (g.call 0 (List.replicate g.inputSize ((1 : ℚ) / 2)) = Except.error p →
      cuhreIntegrate g cf = (Outcome.panicked p, 1, false)) ∧
    (∀ g2 : IntegrandM, g2.inputSize = g.inputSize →
      (∀ a, g2.call 0 a = g.call 0 a) → cuhreIntegrate g2 cf = cuhreIntegrate g cf) := by
  refine ⟨?_, ?_, ?_, ?_, ?_⟩
  · intro h1 hc hl
    simp [makeGslFunction, h1, hc, hl]
  · intro h1 hc
    simp [qngIntegrate, makeGslFunction, h1, hc]
  · intro h1 hc hl hc2
    simp [makeGslFunction, h1, hc, hl, hc2]
  · intro hc
    simp only [cuhreIntegrate]
    rw [hc]
  · intro g2 hsize hcall
    simp only [cuhreIntegrate, hsize, hcall]

theorem c9_probe_calls_witness :
    makeGslFunction gOneDim 0 0 1 = MkGslResult.ok 1 :=
  (c9_probe_calls gOneDim 0 1 frTrivial cfOk (PanicPayload.user 0) [0] []).1 rfl rfl rfl

/-- The adjacent-pair scan of `verify_singular_points` finds no offending
pair exactly when the list is a strictly ascending chain. -/
theorem anyZipLe_eq_false_iff (l : List ℚ) :
    ((l.zip l.tail).any fun ab => decide (ab.2 ≤ ab.1)) = false ↔
      l.Chain' (fun a b => a < b) := by
  induction l with
  | nil => simp
  | cons a t ih =>
    cases t with
    | nil => simp
    | cons b t2 =>
      simp only [List.tail_cons, List.zip_cons_cons, List.any_cons, Bool.or_eq_false_iff,
        decide_eq_false_iff_not, not_le, List.chain'_cons] at ih ⊢
      exact and_congr Iff.rfl ih

/-- C6 amended: QAGP singular-point validation. Construction through `new`
fails by returning `None` — with no error value of any kind, and without
allocating the foreign workspace — exactly when the supplied list has
fewer than two points or is not strictly ascending; otherwise it succeeds,
allocates the workspace, and stores exactly the supplied points.
`with_points` validates identically (and never allocates). -/
theorem c6_qagp_validation (n : ℕ) (q : QAGPModel) (l : List ℚ) :
    (qagpNew n l =
      if 2 ≤ l.length ∧ l.Pairwise (fun a b => a < b) then
        (some { singularities := l, nintervals := n }, true)
      else (none, false)) ∧
    (qagpWithPoints q l =
      if 2 ≤ l.length ∧ l.Pairwise (fun a b => a < b) then
        some { q with singularities := l }
      else none) := by
  have hv : verifySingularPoints l =
      if 2 ≤ l.length ∧ l.Pairwise (fun a b => a < b) then some l else none := by
    unfold verifySingularPoints
    by_cases h1 : l.length < 2
    · have : ¬ 2 ≤ l.length := by omega
      simp [h1, this]
    · have h2 : 2 ≤ l.length := by omega
      by_cases h3 : ((l.zip l.tail).any fun ab => decide (ab.2 ≤ ab.1)) = true
      · have : ¬ l.Chain' (fun a b => a < b) := by
          rw [← anyZipLe_eq_false_iff]
          simp [h3]
        rw [List.chain'_iff_pairwise] at this
        simp [h1, h3, h2, this]
      · have hch : l.Chain' (fun a b => a < b) := by
          rw [← anyZipLe_eq_false_iff]
          simpa using h3
        rw [List.chain'_iff_pairwise] at hch
        simp [h1, h3, h2, hch]
  constructor
  · unfold qagpNew
    rw [hv]
    by_cases h : 2 ≤ l.length ∧ l.Pairwise (fun a b => a < b) <;> simp [h]
  · unfold qagpWithPoints
    rw [hv]
    by_cases h : 2 ≤ l.length ∧ l.Pairwise (fun a b => a < b) <;> simp [h]

/-- C6 counterexample: at the concrete input `[5]` (fewer than two points),
`QAGP::new` fails by returning `None` and allocates nothing: the failure
carries no error value at all — in particular no `InvalidConfiguration`
error, a variant that does not even exist in the repository's
`GSLIntegrationError` vocabulary — refuting the claim that construction
fails *with InvalidConfiguration*. -/
theorem c6_counterexample :
    verifySingularPoints [(5 : ℚ)] = none ∧ qagpNew 10 [(5 : ℚ)] = (none, false) :=
  ⟨rfl, rfl⟩

/-- C10: `IntegrationRange` (exact arithmetic model of the `f64` affine
map). For a range built from `(start, end)`, `transform x` asserts
`0 ≤ x ≤ 1` and yields `start + x * (end - start)` — hence `start` at 0 and
`end` at 1 — panics on the assertion for every x outside `[0, 1]`, and
`jacobian()` is `end - start`. -/
theorem c10_integration_range (s e x : ℚ) :
    (0 ≤ x → x ≤ 1 →
      rangeTransform (integrationRangeNew s e) x = Except.ok (s + x * (e - s))) ∧
    rangeTransform (integrationRangeNew s e) 0 = Except.ok s ∧
    rangeTransform (integrationRangeNew s e) 1 = Except.ok e ∧
    (¬ (0 ≤ x ∧ x ≤ 1) →
      rangeTransform (integrationRangeNew s e) x = Except.error PanicPayload.assertionFailed) ∧
    rangeJacobian (integrationRangeNew s e) = e - s := by
  refine ⟨?_, ?_, ?_, ?_, rfl⟩
  · intro h1 h2
    simp [rangeTransform, integrationRangeNew, h1, h2]
  · norm_num [rangeTransform, integrationRangeNew]
  · have hone : s + 1 * (e - s) = e := by ring
    norm_num [rangeTransform, integrationRangeNew, hone]
  · intro h
    simp [rangeTransform, integrationRangeNew, h]

theorem c10_integration_range_witness :
    rangeTransform (integrationRangeNew 2 5) (1 / 2) = Except.ok (2 + (1 / 2) * (5 - 2)) ∧
    rangeTransform (integrationRangeNew 2 5) 2 = Except.error PanicPayload.assertionFailed := by
  refine ⟨(c10_integration_range 2 5 (1 / 2)).1 (by norm_num) (by norm_num), ?_⟩
  exact (c10_integration_range 2 5 2).2.2.2.1 (by norm_num)

/-- C3: Cuba status-code mapping, identically for Cuhre, Vegas and Suave.
Given a successful probe (output arity = number of probed components) and,
for the pad-carrying adapters, no captured callback failure, the foreign
status is mapped exactly as: `0` yields `Ok` with one result entry per
output dimension; `-1` yields the bad-input-dimension error carrying the
input arity; `-2` yields the bad-output-dimension error carrying the
output arity; `1` yields `DidNotConverge` carrying the partial numeric
results read back from the buffers; any other status hits `unreachable!`
(a panic), never another variant. -/
theorem c3_cuba_status_mapping (g : IntegrandM) (fr : ℕ → CubaForeignOut) (out0 : List ℚ)
    (hprobe : g.call 0 (List.replicate g.inputSize ((1 : ℚ) / 2)) = Except.ok out0)
    (hpad : (fr 1).padErr = none) :
    ((cubaResults out0.length (fr 1)).length = out0.length) ∧
    ((fr 1).fail = 0 →
      cuhreIntegrate g fr =
        (Outcome.ok { nregions := some (fr 1).nregions, neval := (fr 1).neval,
                      results := cubaResults out0.length (fr 1) }, (fr 1).newCount, true) ∧
      vegasIntegrate g fr =
        (Outcome.ok { nregions := none, neval := (fr 1).neval,
                      results := cubaResults out0.length (fr 1) }, (fr 1).newCount, true) ∧
      suaveIntegrate g fr =
        (Outcome.ok { nregions := some (fr 1).nregions, neval := (fr 1).neval,
                      results := cubaResults out0.length (fr 1) }, (fr 1).newCount, true)) ∧
    ((fr 1).fail = -1 →
      cuhreIntegrate g fr =
        (Outcome.err (CubaError.badDim "cuhre" g.inputSize), (fr 1).newCount, true) ∧
      vegasIntegrate g fr =
        (Outcome.err (CubaError.badDim "vegas" g.inputSize), (fr 1).newCount, true) ∧
      suaveIntegrate g fr =
        (Outcome.err (CubaError.badDim "suave" g.inputSize), (fr 1).newCount, true)) ∧
    ((fr 1).fail = -2 →
      cuhreIntegrate g fr =
        (Outcome.err (CubaError.badComp "cuhre" out0.length), (fr 1).newCount, true) ∧
      vegasIntegrate g fr =
        (Outcome.err (CubaError.badComp "vegas" out0.length), (fr 1).newCount, true) ∧
      suaveIntegrate g fr =
        (Outcome.err (CubaError.badComp "suave" out0.length), (fr 1).newCount, true)) ∧
    ((fr 1).fail = 1 →
      cuhreIntegrate g fr =
        (Outcome.err (CubaError.didNotConverge
            { nregions := some (fr 1).nregions, neval := (fr 1).neval,
              results := cubaResults out0.length (fr 1) }), (fr 1).newCount, true) ∧
      vegasIntegrate g fr =
        (Outcome.err (CubaError.didNotConverge
            { nregions := none, neval := (fr 1).neval,
              results := cubaResults out0.length (fr 1) }), (fr 1).newCount, true) ∧
      suaveIntegrate g fr =
        (Outcome.err (CubaError.didNotConverge
            { nregions := none, neval := (fr 1).neval,
              results := cubaResults out0.length (fr 1) }), (fr 1).newCount, true)) ∧
    ((fr 1).fail ≠ 0 → (fr 1).fail ≠ -1 → (fr 1).fail ≠ -2 → (fr 1).fail ≠ 1 →
      (cuhreIntegrate g fr).1 = Outcome.panicked PanicPayload.unreachableHit ∧
      (vegasIntegrate g fr).1 = Outcome.panicked PanicPayload.unreachableHit ∧
      (suaveIntegrate g fr).1 = Outcome.panicked PanicPayload.unreachableHit) := by
  refine ⟨by simp [cubaResults], ?_, ?_, ?_, ?_, ?_⟩
  · intro h
    refine ⟨?_, ?_, ?_⟩ <;>
      (simp only [cuhreIntegrate, vegasIntegrate, suaveIntegrate]; rw [hprobe]; simp [hpad, h])
  · intro h
    refine ⟨?_, ?_, ?_⟩ <;>
      (simp only [cuhreIntegrate, vegasIntegrate, suaveIntegrate]; rw [hprobe]; simp [hpad, h])
  · intro h
    refine ⟨?_, ?_, ?_⟩ <;>
      (simp only [cuhreIntegrate, vegasIntegrate, suaveIntegrate]; rw [hprobe]; simp [hpad, h])
  · intro h
    refine ⟨?_, ?_, ?_⟩ <;>
      (simp only [cuhreIntegrate, vegasIntegrate, suaveIntegrate]; rw [hprobe]; simp [hpad, h])
  · intro h0 h1 h2 h3
    refine ⟨?_, ?_, ?_⟩ <;>
      (simp only [cuhreIntegrate, vegasIntegrate, suaveIntegrate]; rw [hprobe]; simp [hpad, h0, h1, h2, h3])

theorem c3_cuba_status_mapping_witness :
    cuhreIntegrate gOneDim cfOk =
      (Outcome.ok { nregions := some 4, neval := 9, results := cubaResults 1 (cfOk 1) },
       1, true) := by
  have h := c3_cuba_status_mapping gOneDim cfOk [0] rfl rfl
  exact (h.2.1 rfl).1
